import Mathlib

set_option maxHeartbeats 1000000

/-!
Shallow embedding of the QR code service (src/main.py and src/schemas.py).

External collaborators (the qrcode encoder, PIL pixel operations, the HTTP
logo fetch, PNG serialization of pixel data) are passed in as a `Collab`
record of functions, mirroring the fact that the repository treats them as
external library capabilities.  Everything the repository itself computes
(validation, control flow, the composition pipeline, history normalization)
is translated directly from the source.
-/

/-- Characters Python's str.strip removes by default. -/
def pyWS (c : Char) : Bool :=
  c = ' ' || c = '\t' || c = '\n' || c = '\r' || c = '\x0b' || c = '\x0c'

/-- Python str.strip(): remove leading and trailing whitespace. -/
def pyStrip (s : String) : String :=
  String.mk (List.reverse (List.dropWhile pyWS (List.reverse (List.dropWhile pyWS s.data))))

/-- Python str.upper() restricted to its ASCII action, which is all the
comparison against the four level names needs. -/
def pyUpper (s : String) : String :=
  String.mk (List.map Char.toUpper s.data)

/-- Prefix test on strings by their character lists. -/
def strStarts (pre s : String) : Bool :=
  List.isPrefixOf pre.data s.data

/-- Error-correction levels, mirroring qrcode.constants.ERROR_CORRECT_L / M / Q / H. -/
inductive ECLevel where
  | L : ECLevel
  | M : ECLevel
  | Q : ECLevel
  | H : ECLevel
  deriving DecidableEq, Repr

/-- EC_MAP from main.py: the dict from level names to encoder constants. -/
def EC_MAP : List (String × ECLevel) :=
  [("L", ECLevel.L), ("M", ECLevel.M), ("Q", ECLevel.Q), ("H", ECLevel.H)]

/-- Python dict .get(key, default) on a small association list with unique keys. -/
def dget (m : List (String × ECLevel)) (k : String) (dflt : ECLevel) : ECLevel :=
  match m with
  | [] => dflt
  | kv :: rest => if kv.1 = k then kv.2 else dget rest k dflt

/-- EC_MAP.get(payload.error_correction.upper(), qconst.ERROR_CORRECT_M) from main.py line 93. -/
def ecLookup (s : String) : ECLevel :=
  dget EC_MAP (pyUpper s) ECLevel.M

/-- An RGBA raster image: dimensions plus color and alpha channel pixel lists. -/
structure Image where
  width : Int
  height : Int
  rgb : List (Int × Int × Int)
  alpha : List Int
  deriving DecidableEq, Repr

/-- img.putalpha(mask): replace the alpha channel, keeping everything else. -/
def Image.putalpha (img : Image) (a : List Int) : Image :=
  ⟨img.width, img.height, img.rgb, a⟩

/-- PIL Image.new("RGBA", (w, h), (r, g, b, a)): a solid image of the given size. -/
def Image.mkNew (w h r g b a : Int) : Image :=
  ⟨w, h, List.replicate (w * h).toNat (r, g, b), List.replicate (w * h).toNat a⟩

/-- External collaborators used by the service: the QR encoder producing the base
bitmap, PIL's Gaussian blur on a single channel, PIL's resampling and
alpha-compositing pixel math, the network logo fetch, and the PNG body
serializer.  The repository calls these as library functions; theorems below
are quantified over them. -/
structure Collab where
  makeImage : ECLevel → Int → Int → String → String → String → Image
  blur : ℚ → List Int → List Int
  resamplePix : Image → Int → Int → List (Int × Int × Int) × List Int
  compositePix : Image → Image → Int → Int → List (Int × Int × Int) × List Int
  fetchLogo : String → Option Image
  pngBody : Image → List Nat

/-- Round half to even, as Python's built-in round used by PIL. -/
def pyRound (q : ℚ) : Int :=
  if q - ⌊q⌋ < 1 / 2 then ⌊q⌋
  else if 1 / 2 < q - ⌊q⌋ then ⌊q⌋ + 1
  else if ⌊q⌋ % 2 = 0 then ⌊q⌋ else ⌊q⌋ + 1

/-- Models the size computation of PIL ImageOps.contain(image, (tw, th)):
keep aspect ratio, resize so the image exactly fits inside the box.  The
ratio comparisons are done exactly by cross-multiplication (dimensions are
positive in every use). -/
def containSize (w h tw th : Int) : Int × Int :=
  if w * th = h * tw then (tw, th)
  else if h * tw < w * th then (tw, pyRound ((h : ℚ) * tw / w))
  else (pyRound ((w : ℚ) * th / h), th)

/-- ImageOps.contain(logo, (tw, th)) from main.py line 115: compute the contained
size, then resize (resampled pixels come from the PIL collaborator; the result
has exactly the computed size, as PIL Image.resize guarantees). -/
def containImage (c : Collab) (img : Image) (tw th : Int) : Image :=
  ⟨(containSize img.width img.height tw th).1,
   (containSize img.width img.height tw th).2,
   (c.resamplePix img (containSize img.width img.height tw th).1
      (containSize img.width img.height tw th).2).1,
   (c.resamplePix img (containSize img.width img.height tw th).1
      (containSize img.width img.height tw th).2).2⟩

/-- img.alpha_composite(src, (x, y)): in-place compositing; the destination
keeps its dimensions, pixels come from the PIL collaborator. -/
def alphaComposite (c : Collab) (dest src : Image) (x y : Int) : Image :=
  ⟨dest.width, dest.height, (c.compositePix dest src x y).1, (c.compositePix dest src x y).2⟩

/-- target = int(min(q_w, q_h) * 0.2) from main.py line 114; Python int()
truncates toward zero. -/
def logoTarget (w h : Int) : Int :=
  Int.tdiv (min w h * 2) 10

/-- rounded_square from main.py (there spelled with a leading underscore):
convert the mask to L mode (the identity on a single channel) and apply a
Gaussian blur of radius radius/3. -/
def rounded_square (blur : ℚ → List Int → List Int) (mask : List Int) (radius : Int) : List Int :=
  blur ((radius : ℚ) / 3) mask

/-- QRRequest from main.py lines 32-40.  The pydantic model declares plain
types only; no Field range constraints appear in the source. -/
structure QRRequest where
  content : String
  fill_color : String
  back_color : String
  box_size : Int
  border : Int
  error_correction : String
  rounded : Bool
  logo_url : Option String
  deriving DecidableEq, Repr

/-- A QRRequest with every defaulted field at its declared default. -/
def defaultRequest (content : String) : QRRequest :=
  ⟨content, "#111827", "#ffffff", 10, 4, "M", true, none⟩

/-- Copy of a request with the error_correction field replaced. -/
def withEC (p : QRRequest) (s : String) : QRRequest :=
  ⟨p.content, p.fill_color, p.back_color, p.box_size, p.border, s, p.rounded, p.logo_url⟩

/-- Copy of a request with the logo_url field replaced. -/
def withLogo (p : QRRequest) (u : Option String) : QRRequest :=
  ⟨p.content, p.fill_color, p.back_color, p.box_size, p.border, p.error_correction, p.rounded, u⟩

/-- Qr from src/schemas.py lines 44-54: the persisted history record. -/
structure Qr where
  content : String
  fill_color : String
  back_color : String
  box_size : Int
  border : Int
  error_correction : String
  logo_url : Option String
  deriving DecidableEq, Repr

/-- Minimal model of pydantic HttpUrl acceptance for a string. -/
def isHttpUrl (u : String) : Bool :=
  strStarts "http://" u || strStarts "https://" u

/-- Validity of the optional logo_url field under the Qr schema. -/
def logoOk : Option String → Bool
  | none => true
  | some u => isHttpUrl u

/-- Qr(**payload.model_dump()): pydantic validation of the persisted record
against schemas.py, with box_size in 1..50, border in 0..20 and logo_url an
HttpUrl; the extra rounded key is ignored, as pydantic ignores unknown
fields by default. -/
def qrValidate (p : QRRequest) : Except Unit Qr :=
  if 1 ≤ p.box_size ∧ p.box_size ≤ 50 ∧ 0 ≤ p.border ∧ p.border ≤ 20 ∧ logoOk p.logo_url = true
  then Except.ok ⟨p.content, p.fill_color, p.back_color, p.box_size, p.border,
                  p.error_correction, p.logo_url⟩
  else Except.error ()

/-- An HTTP error response: status code and detail message. -/
structure HTTPErr where
  status : Int
  detail : String
  deriving DecidableEq, Repr

/-- Lines 123-127 of main.py: try to persist the request, swallowing every
failure (schema validation failure as well as a failing write, the latter
modelled by the writeFails flag since database.py supplies create_document). -/
def tryPersist (writeFails : Bool) (db : List Qr) (p : QRRequest) : List Qr :=
  match qrValidate p with
  | Except.error _ => db
  | Except.ok q => if writeFails then db else db ++ [q]

/-- Eight-byte PNG file signature, written by PIL for every format="PNG" save. -/
def pngSignature : List Nat :=
  [137, 80, 78, 71, 13, 10, 26, 10]

/-- img.save(buf, format="PNG"): the serialized bytes start with the PNG
signature, followed by the chunk data produced from the pixels. -/
def savePng (c : Collab) (img : Image) : List Nat :=
  pngSignature ++ c.pngBody img

/-- Base bitmap from the qrcode library (main.py lines 94-101): the encoder
receives the normalized error-correction level, box size, border and colors. -/
def baseImage (c : Collab) (p : QRRequest) : Image :=
  c.makeImage (ecLookup p.error_correction) p.box_size p.border p.fill_color p.back_color p.content

/-- Corner softening (main.py lines 103-107): when rounded, take the alpha
channel, soften it with rounded_square at radius max(4, box_size), and put it
back. -/
def softened (c : Collab) (p : QRRequest) (img : Image) : Image :=
  if p.rounded
  then Image.putalpha img (rounded_square c.blur img.alpha (max 4 p.box_size))
  else img

/-- Logo overlay (main.py lines 109-121): when a truthy logo_url is present and
the fetch succeeds, contain the logo in the 20% square box, composite a white
backing square 16 pixels larger, then composite the logo, both centered. -/
def logoStep (c : Collab) (p : QRRequest) (img : Image) : Image :=
  match p.logo_url with
  | none => img
  | some url =>
    if url = "" then img
    else
      match c.fetchLogo url with
      | none => img
      | some logo0 =>
        let logo := containImage c logo0 (logoTarget img.width img.height)
                      (logoTarget img.width img.height)
        let bg := Image.mkNew (logo.width + 16) (logo.height + 16) 255 255 255 220
        let img1 := alphaComposite c img bg (Int.fdiv (img.width - bg.width) 2)
                      (Int.fdiv (img.height - bg.height) 2)
        alphaComposite c img1 logo (Int.fdiv (img1.width - logo.width) 2)
          (Int.fdiv (img1.height - logo.height) 2)

/-- generate_qr_png from main.py lines 88-132, with the database threaded
explicitly: blank content is rejected with 400, otherwise the composition
pipeline runs and the PNG bytes are returned while the persistence attempt
only affects the database component. -/
def generate_qr_png (c : Collab) (writeFails : Bool) (db : List Qr) (p : QRRequest) :
    Except HTTPErr (List Nat) × List Qr :=
  if pyStrip p.content = ""
  then (Except.error ⟨400, "content is required"⟩, db)
  else (Except.ok (savePng c (logoStep c p (softened c p (baseImage c p)))),
        tryPersist writeFails db p)

/-- Values that can sit in a stored document field (the BSON subset this
service produces or may encounter). -/
inductive BVal where
  | vstr : String → BVal
  | vint : Int → BVal
  | vbool : Bool → BVal
  | vnull : BVal
  deriving DecidableEq, Repr

/-- A stored document: an association list from field names to values. -/
def BDoc : Type := List (String × BVal)

instance : DecidableEq BDoc := by
  unfold BDoc
  infer_instance

/-- d.get(key): lookup of a field in a stored document. -/
def bget (d : BDoc) (k : String) : Option BVal :=
  Option.map Prod.snd (List.find? (fun kv => kv.1 == k) d)

/-- Value of a nonempty all-digit character list read in base 10. -/
def digitsToInt (l : List Char) : Int :=
  List.foldl (fun acc c => acc * 10 + Int.ofNat (c.toNat - 48)) 0 l

/-- Digit-run parser used by the int(str) model. -/
def pyIntDigits (l : List Char) : Except Unit Int :=
  if l ≠ [] ∧ l.all Char.isDigit = true then Except.ok (digitsToInt l) else Except.error ()

/-- Python int(string): strip whitespace, optional sign, then decimal digits;
anything else raises ValueError. -/
def pyIntOfStr (s : String) : Except Unit Int :=
  match (pyStrip s).data with
  | [] => Except.error ()
  | c :: rest =>
    if c = '+' then pyIntDigits rest
    else if c = '-' then Except.map (fun n => -n) (pyIntDigits rest)
    else pyIntDigits (c :: rest)

/-- Python int(value) on a stored field value: ints pass through, bools become
0 or 1, numeric strings parse, everything else raises. -/
def pyInt : BVal → Except Unit Int
  | BVal.vint n => Except.ok n
  | BVal.vbool b => Except.ok (if b then 1 else 0)
  | BVal.vstr s => pyIntOfStr s
  | BVal.vnull => Except.error ()

/-- Python str(value) on a stored field value. -/
def pyStr : BVal → String
  | BVal.vstr s => s
  | BVal.vint n => toString n
  | BVal.vbool b => if b then "True" else "False"
  | BVal.vnull => "None"

/-- HistoryItem from main.py lines 135-142. -/
structure HistoryItem where
  content : String
  fill_color : String
  back_color : String
  box_size : Int
  border : Int
  error_correction : String
  logo_url : Option String
  deriving DecidableEq, Repr

/-- Pydantic validation of a required str field fed from d.get(key, default). -/
def pydStrField (v : Option BVal) (dflt : String) : Except Unit String :=
  match v with
  | none => Except.ok dflt
  | some (BVal.vstr s) => Except.ok s
  | some _ => Except.error ()

/-- Pydantic validation of an Optional[str] field fed from d.get(key). -/
def pydOptStrField (v : Option BVal) : Except Unit (Option String) :=
  match v with
  | none => Except.ok none
  | some BVal.vnull => Except.ok none
  | some (BVal.vstr s) => Except.ok (some s)
  | some _ => Except.error ()

/-- One loop iteration of get_history (main.py lines 153-161): build a
HistoryItem with d.get defaults, int() conversions for box_size and border,
str() for error_correction, and pydantic field validation; any conversion or
validation failure raises. -/
def normalizeRecord (d : BDoc) : Except Unit HistoryItem := do
  let content ← pydStrField (bget d "content") ""
  let fill ← pydStrField (bget d "fill_color") "#111827"
  let back ← pydStrField (bget d "back_color") "#ffffff"
  let box ← pyInt ((bget d "box_size").getD (BVal.vint 10))
  let bord ← pyInt ((bget d "border").getD (BVal.vint 4))
  let logo ← pydOptStrField (bget d "logo_url")
  Except.ok ⟨content, fill, back, box, bord,
             pyStr ((bget d "error_correction").getD (BVal.vstr "M")), logo⟩

/-- The normalization loop of get_history: the first record that fails aborts
the whole computation, as an uncaught exception inside the for loop does. -/
def normalizeAll : List BDoc → Except Unit (List HistoryItem)
  | [] => Except.ok []
  | d :: ds =>
    match normalizeRecord d with
    | Except.error e => Except.error e
    | Except.ok i =>
      match normalizeAll ds with
      | Except.error e => Except.error e
      | Except.ok rest => Except.ok (i :: rest)

/-- Modelled from the spec: database.py (the persistence collaborator that
provides get_documents) is not part of src/; per the contract stated in the
spec, get_documents(collection, filter, limit) returns up to limit records
from the store. -/
def get_documents (store : List BDoc) (limit : Int) : List BDoc :=
  List.take limit.toNat store

/-- get_history body (main.py lines 147-164): read the documents and normalize
them inside one try block; any failure (the read itself, a conversion, a
validation) produces the empty list instead. -/
def get_history (dbRead : Except Unit (List BDoc)) (limit : Int) : List HistoryItem :=
  match Except.bind dbRead (fun store => normalizeAll (get_documents store limit)) with
  | Except.ok out => out
  | Except.error _ => []

/-- GET /api/history with its limit query parameter declared as
Query(12, ge=1, le=50): an omitted limit defaults to 12, an out-of-range limit
is rejected by FastAPI request validation (HTTP 422), modelled as the error
case. -/
def api_history (dbRead : Except Unit (List BDoc)) (limitParam : Option Int) :
    Except Unit (List HistoryItem) :=
  if 1 ≤ limitParam.getD 12 ∧ limitParam.getD 12 ≤ 50
  then Except.ok (get_history dbRead (limitParam.getD 12))
  else Except.error ()

/-- Pydantic lax validation of an int field of the request body (vint passes,
a numeric string coerces, other shapes are rejected). -/
def pydIntField (v : Option BVal) (dflt : Int) : Except Unit Int :=
  match v with
  | none => Except.ok dflt
  | some (BVal.vint n) => Except.ok n
  | some (BVal.vstr s) => pyIntOfStr s
  | some _ => Except.error ()

/-- Pydantic validation of the bool rounded field of the request body. -/
def pydBoolField (v : Option BVal) (dflt : Bool) : Except Unit Bool :=
  match v with
  | none => Except.ok dflt
  | some (BVal.vbool b) => Except.ok b
  | some _ => Except.error ()

/-- Request-body validation induced by the QRRequest pydantic model of
main.py lines 32-40: content is a required string, every other field is typed
with a default; the model declares no range constraint on any field. -/
def qrRequestValidate (raw : BDoc) : Except Unit QRRequest := do
  let content ← match bget raw "content" with
    | some (BVal.vstr s) => Except.ok s
    | _ => Except.error ()
  let fill ← pydStrField (bget raw "fill_color") "#111827"
  let back ← pydStrField (bget raw "back_color") "#ffffff"
  let box ← pydIntField (bget raw "box_size") 10
  let bord ← pydIntField (bget raw "border") 4
  let ec ← pydStrField (bget raw "error_correction") "M"
  let rounded ← pydBoolField (bget raw "rounded") true
  let logo ← pydOptStrField (bget raw "logo_url")
  Except.ok ⟨content, fill, back, box, bord, ec, rounded, logo⟩

/-- Success test for an Except value. -/
def exOk {ε α : Type} : Except ε α → Bool
  | Except.ok _ => true
  | Except.error _ => false

/-- Failure test for an Except value. -/
def exErr {ε α : Type} : Except ε α → Bool
  | Except.ok _ => false
  | Except.error _ => true

/-- A concrete instantiation of the external collaborators, used to evaluate
the pipeline on concrete inputs. -/
def trivCollab : Collab :=
  ⟨fun _ _ _ _ _ _ => ⟨1, 1, [(0, 0, 0)], [255]⟩,
   fun _ m => m,
   fun img _ _ => (img.rgb, img.alpha),
   fun d _ _ _ => (d.rgb, d.alpha),
   fun _ => none,
   fun _ => [0]⟩

/-- A tiny concrete image for witnesses. -/
def img0 : Image := ⟨1, 1, [(0, 0, 0)], [255]⟩

/-- A request with the unrecognized error-correction string "x". -/
def pX : QRRequest := ⟨"hello", "#111827", "#ffffff", 10, 4, "x", true, none⟩

/-- The record that persisting pX produces. -/
def qX : Qr := ⟨"hello", "#111827", "#ffffff", 10, 4, "x", none⟩

/-- A 10 by 10 logo image. -/
def logo10 : Image := ⟨10, 10, List.replicate 100 (0, 0, 0), List.replicate 100 255⟩

/-- A request whose box_size and border violate the Qr persistence schema. -/
def pBad : QRRequest := ⟨"hello", "#111827", "#ffffff", 0, -1, "M", true, none⟩

/-- A raw request body with box_size 0 and border -1. -/
def raw9 : BDoc :=
  [("content", BVal.vstr "hello"), ("box_size", BVal.vint 0), ("border", BVal.vint (-1))]

/-- A stored document that normalizes successfully. -/
def goodDoc : BDoc := [("content", BVal.vstr "ok")]

/-- A stored document whose box_size cannot be converted by int(). -/
def badDoc : BDoc := [("box_size", BVal.vstr "abc")]

/-! Helper lemmas. -/

/-- A string whose uppercase form is none of the four level names falls through
EC_MAP to the M default. -/
theorem ecLookup_eq_M_of_unrecognized (s : String)
    (h : pyUpper s ∉ (["L", "M", "Q", "H"] : List String)) : ecLookup s = ECLevel.M := by
  have hL : ¬ ("L" = pyUpper s) := fun e => h (by rw [← e]; simp)
  have hM : ¬ ("M" = pyUpper s) := fun e => h (by rw [← e]; simp)
  have hQ : ¬ ("Q" = pyUpper s) := fun e => h (by rw [← e]; simp)
  have hH : ¬ ("H" = pyUpper s) := fun e => h (by rw [← e]; simp)
  simp [ecLookup, EC_MAP, dget, hL, hM, hQ, hH]

/-- A record accepted by the Qr schema keeps the request's error_correction
string verbatim. -/
theorem qrValidate_ec (p : QRRequest) (q : Qr) (h : qrValidate p = Except.ok q) :
    q.error_correction = p.error_correction := by
  unfold qrValidate at h
  split at h
  · cases h
    rfl
  · cases h

/-- Half-to-even rounding never exceeds an integer bound that the argument
respects. -/
theorem pyRound_le (q : ℚ) (n : Int) (h : q ≤ (n : ℚ)) : pyRound q ≤ n := by
  have hfl : ⌊q⌋ ≤ n := by
    have h2 := Int.floor_le_floor h
    rwa [Int.floor_intCast] at h2
  have key : (1 : ℚ) / 2 ≤ q - (⌊q⌋ : ℚ) → ⌊q⌋ + 1 ≤ n := by
    intro hhalf
    rcases lt_or_eq_of_le hfl with hlt | heq
    · omega
    · exfalso
      have hq : q ≤ ((⌊q⌋ : Int) : ℚ) := by
        rw [heq]
        exact h
      linarith
  unfold pyRound
  split_ifs with h1 h2 h3
  · exact hfl
  · exact key (not_lt.mp h1)
  · exact hfl
  · exact key (not_lt.mp h1)

/-- Successful normalization preserves the number of records. -/
theorem normalizeAll_length (l : List BDoc) (out : List HistoryItem)
    (h : normalizeAll l = Except.ok out) : out.length = l.length := by
  induction l generalizing out with
  | nil =>
    cases h
    rfl
  | cons d ds ih =>
    unfold normalizeAll at h
    cases hr : normalizeRecord d with
    | error e =>
      rw [hr] at h
      cases h
    | ok i =>
      rw [hr] at h
      cases ha : normalizeAll ds with
      | error e =>
        rw [ha] at h
        cases h
      | ok rest =>
        rw [ha] at h
        cases h
        simp [ih rest ha]

/-- One failing record makes the whole normalization loop fail. -/
theorem normalizeAll_err (d : BDoc) (l : List BDoc) (hd : d ∈ l)
    (he : exErr (normalizeRecord d) = true) : exErr (normalizeAll l) = true := by
  induction l with
  | nil => cases hd
  | cons a as ih =>
    unfold normalizeAll
    cases hr : normalizeRecord a with
    | error e => simp [exErr]
    | ok i =>
      cases hd with
      | head =>
        rw [hr] at he
        simp [exErr] at he
      | tail _ hmem =>
        have hrec := ih hmem
        cases ha : normalizeAll as with
        | error e => simp [exErr]
        | ok rest =>
          rw [ha] at hrec
          simp [exErr] at hrec

/-! Claim theorems. -/

/-- C1: POST /api/qrcode.png answers HTTP 400 with detail "content is required"
exactly when the content string is blank after stripping whitespace; for every
other content the endpoint succeeds and the body is the PNG serialization of
the composed image — nonempty bytes that begin with the PNG signature. -/
theorem C1_blank_content (c : Collab) (wf : Bool) (db : List Qr) (p : QRRequest) :
    ((generate_qr_png c wf db p).1 = Except.error ⟨400, "content is required"⟩
        ↔ pyStrip p.content = "")
    ∧ (pyStrip p.content ≠ "" →
        (generate_qr_png c wf db p).1
          = Except.ok (savePng c (logoStep c p (softened c p (baseImage c p))))
        ∧ ∀ bytes, (generate_qr_png c wf db p).1 = Except.ok bytes →
            List.take 8 bytes = pngSignature ∧ bytes ≠ []) := by
  by_cases h : pyStrip p.content = ""
  · constructor
    · simp [generate_qr_png, h]
    · intro hc
      exact absurd h hc
  · constructor
    · simp [generate_qr_png, h]
    · intro _
      constructor
      · simp [generate_qr_png, h]
      · intro bytes hb
        simp only [generate_qr_png, if_neg h] at hb
        cases hb
        constructor
        · show List.take 8 (savePng c _) = pngSignature
          unfold savePng
          have h8 : (8 : Nat) = pngSignature.length := rfl
          rw [h8, List.take_left]
        · simp [savePng, pngSignature]

/-- C1 witness: a concrete non-blank request produces the composed PNG. -/
theorem C1_blank_content_witness :
    (generate_qr_png trivCollab false [] (defaultRequest "hello")).1
      = Except.ok (savePng trivCollab (logoStep trivCollab (defaultRequest "hello")
          (softened trivCollab (defaultRequest "hello")
            (baseImage trivCollab (defaultRequest "hello"))))) :=
  ((C1_blank_content trivCollab false [] (defaultRequest "hello")).2 (by decide)).1

/-- C2: the level handed to the encoder comes from uppercasing the request's
error_correction string and looking it up among L, M, Q and H; the lowercase
names are recognized, and any string whose uppercase form is not one of the
four acts exactly as "M": the whole HTTP response equals the one an explicit
"M" request gets, with no error surfaced. -/
theorem C2_ec_normalization (s : String)
    (h : pyUpper s ∉ (["L", "M", "Q", "H"] : List String)) :
    ecLookup "l" = ECLevel.L ∧ ecLookup "m" = ECLevel.M ∧ ecLookup "q" = ECLevel.Q
    ∧ ecLookup "h" = ECLevel.H ∧ ecLookup s = ECLevel.M
    ∧ ∀ (c : Collab) (wf : Bool) (db : List Qr) (p : QRRequest),
        (generate_qr_png c wf db (withEC p s)).1 = (generate_qr_png c wf db (withEC p "M")).1 := by
  refine ⟨by decide, by decide, by decide, by decide, ecLookup_eq_M_of_unrecognized s h, ?_⟩
  intro c wf db p
  have he : ecLookup s = ecLookup "M" := by
    rw [ecLookup_eq_M_of_unrecognized s h]
    decide
  by_cases hc : pyStrip p.content = ""
  · simp [generate_qr_png, withEC, hc]
  · simp only [generate_qr_png, withEC, hc, if_neg, baseImage, he]
    rfl

/-- C2 witness: the unrecognized string "x" encodes as level M. -/
theorem C2_ec_normalization_witness : ecLookup "x" = ECLevel.M :=
  (C2_ec_normalization "x" (by decide)).2.2.2.2.1

/-- C3 counterexample: a request with the unrecognized error-correction string
"x" is persisted with error_correction "x" verbatim — not one of L, M, Q, H and
not "M" — and a stored record holding "x" is read back from the history
endpoint as "x". -/
theorem C3_cex :
    (generate_qr_png trivCollab false [] pX).2 = [qX]
    ∧ qX.error_correction = "x"
    ∧ qX.error_correction ∉ (["L", "M", "Q", "H"] : List String)
    ∧ get_history (Except.ok [[("content", BVal.vstr "hi"), ("error_correction", BVal.vstr "x")]]) 12
        = [⟨"hi", "#111827", "#ffffff", 10, 4, "x", none⟩] :=
  ⟨rfl, rfl, by decide, rfl⟩

/-- C3 amended: only the level used by the encoder is normalized into
{L, M, Q, H}; a persisted record stores the request's error_correction string
verbatim, and a history read returns the stored string unchanged, substituting
"M" only when the field is absent. -/
theorem C3_amended (p : QRRequest) (c : Collab) (wf : Bool) (db : List Qr) :
    (∀ q, q ∈ (generate_qr_png c wf db p).2 → q ∈ db ∨ q.error_correction = p.error_correction)
    ∧ ecLookup p.error_correction ∈ [ECLevel.L, ECLevel.M, ECLevel.Q, ECLevel.H]
    ∧ (∀ s : String, normalizeRecord [("error_correction", BVal.vstr s)]
        = Except.ok ⟨"", "#111827", "#ffffff", 10, 4, s, none⟩) := by
  refine ⟨?_, ?_, fun _ => rfl⟩
  · intro q hq
    by_cases hc : pyStrip p.content = ""
    · simp [generate_qr_png, hc] at hq
      exact Or.inl hq
    · simp only [generate_qr_png, if_neg hc] at hq
      unfold tryPersist at hq
      cases hv : qrValidate p with
      | error e =>
        rw [hv] at hq
        exact Or.inl hq
      | ok q0 =>
        rw [hv] at hq
        by_cases hw : wf
        · simp [hw] at hq
          exact Or.inl hq
        · simp [hw, List.mem_append] at hq
          cases hq with
          | inl h1 => exact Or.inl h1
          | inr h2 =>
            right
            rw [h2]
            exact qrValidate_ec p q0 hv
  · cases h : ecLookup p.error_correction <;> simp

/-- C3 amended witness: the record persisted for pX carries pX's own
error_correction string. -/
theorem C3_amended_witness : qX ∈ ([] : List Qr) ∨ qX.error_correction = pX.error_correction :=
  (C3_amended pX trivCollab false []).1 qX (by decide)

/-- C4: with rounded = true, the corner-softening step replaces the alpha
channel by the Gaussian blur with parameter max(4, box_size)/3 of the incoming
alpha channel, leaves the color channels and dimensions unchanged, never
fails, and when no logo is requested the endpoint's PNG is that of exactly
this softened base image. -/
theorem C4_rounding (c : Collab) (p : QRRequest) (img : Image) (h : p.rounded = true) :
    (softened c p img).rgb = img.rgb
    ∧ (softened c p img).alpha = c.blur (((max 4 p.box_size : Int) : ℚ) / 3) img.alpha
    ∧ (softened c p img).width = img.width
    ∧ (softened c p img).height = img.height
    ∧ (pyStrip p.content ≠ "" → p.logo_url = none → ∀ (wf : Bool) (db : List Qr),
        (generate_qr_png c wf db p).1 = Except.ok (savePng c (softened c p (baseImage c p)))) := by
  refine ⟨?_, ?_, ?_, ?_, ?_⟩
  · simp [softened, h, Image.putalpha]
  · simp [softened, h, Image.putalpha, rounded_square]
  · simp [softened, h, Image.putalpha]
  · simp [softened, h, Image.putalpha]
  · intro hc hl wf db
    simp [generate_qr_png, hc, logoStep, hl]

/-- C4 witness: the softening step on a concrete request and image. -/
theorem C4_rounding_witness :
    (softened trivCollab (defaultRequest "hello") img0).alpha
      = trivCollab.blur (((max 4 (10 : Int) : Int) : ℚ) / 3) img0.alpha :=
  (C4_rounding trivCollab (defaultRequest "hello") img0 rfl).2.1

/-- C5 counterexample: for a 500 by 500 QR image the logo target box is 100,
and a 10 by 10 logo is resized by the contain step to 100 by 100 — upscaled
well beyond its original dimensions, contradicting the never-upscale claim. -/
theorem C5_cex :
    logoTarget 500 500 = 100
    ∧ (containImage trivCollab logo10 (logoTarget 500 500) (logoTarget 500 500)).width = 100
    ∧ (containImage trivCollab logo10 (logoTarget 500 500) (logoTarget 500 500)).height = 100
    ∧ ¬ ((containImage trivCollab logo10 (logoTarget 500 500) (logoTarget 500 500)).width
          ≤ logo10.width) :=
  ⟨rfl, rfl, rfl, by decide⟩

/-- C5 amended: the logo is resized, preserving aspect ratio up to rounding, so
that it fits within the square target box and exactly fills it along one
dimension — logos smaller than the box are therefore scaled up to it, not kept
at their original size. -/
theorem C5_amended (a b t : Int) (ha : 0 < a) (hb : 0 < b) (_ht : 0 < t) :
    (containSize a b t t).1 ≤ t ∧ (containSize a b t t).2 ≤ t
    ∧ ((containSize a b t t).1 = t ∨ (containSize a b t t).2 = t)
    ∧ (a = b → containSize a b t t = (t, t)) := by
  unfold containSize
  split_ifs with h1 h2
  · exact ⟨le_refl t, le_refl t, Or.inl rfl, fun _ => rfl⟩
  · refine ⟨le_refl t, ?_, Or.inl rfl, ?_⟩
    · apply pyRound_le
      have haq : (0 : ℚ) < (a : ℚ) := by exact_mod_cast ha
      rw [div_le_iff₀ haq]
      have hint : b * t ≤ t * a := by nlinarith [le_of_lt h2]
      exact_mod_cast hint
    · intro he
      exact absurd (by rw [he]) h1
  · refine ⟨?_, le_refl t, Or.inr rfl, ?_⟩
    · apply pyRound_le
      have hbq : (0 : ℚ) < (b : ℚ) := by exact_mod_cast hb
      rw [div_le_iff₀ hbq]
      have h3 : a * t < b * t := by
        rcases lt_trichotomy (b * t) (a * t) with hlt | heq | hgt
        · exact absurd hlt h2
        · exact absurd heq.symm h1
        · exact hgt
      have hint : a * t ≤ t * b := by nlinarith [le_of_lt h3]
      exact_mod_cast hint
    · intro he
      exact absurd (by rw [he]) h1

/-- C5 amended witness: a square logo in a square box. -/
theorem C5_amended_witness : (containSize 10 10 100 100).1 ≤ 100 :=
  (C5_amended 10 10 100 (by decide) (by decide) (by decide)).1

/-- C6: when the logo fetch returns nothing — which is what any network error,
timeout, non-success status or decode failure produces — the response equals
the response of the identical request with logo_url omitted. -/
theorem C6_logo_fallback (c : Collab) (wf : Bool) (db : List Qr) (p : QRRequest) (url : String)
    (h : c.fetchLogo url = none) :
    (generate_qr_png c wf db (withLogo p (some url))).1
      = (generate_qr_png c wf db (withLogo p none)).1 := by
  by_cases hc : pyStrip p.content = ""
  · simp [generate_qr_png, withLogo, hc]
  · by_cases hu : url = ""
    · simp only [generate_qr_png, withLogo, if_neg hc]
      simp [logoStep, hu, baseImage, softened]
    · simp only [generate_qr_png, withLogo, if_neg hc]
      simp [logoStep, hu, h, baseImage, softened]

/-- C6 witness: a concrete unreachable logo URL. -/
theorem C6_logo_fallback_witness :
    (generate_qr_png trivCollab false []
        (withLogo (defaultRequest "hello") (some "http://logo.example/a.png"))).1
      = (generate_qr_png trivCollab false [] (withLogo (defaultRequest "hello") none)).1 :=
  C6_logo_fallback trivCollab false [] (defaultRequest "hello") "http://logo.example/a.png" rfl

/-- C7: for every limit between 1 and 50 the history endpoint succeeds with at
most limit records, an omitted limit defaults to 12, a persistence error yields
the empty list with a success status, limits 0 and 51 are rejected by the
declared range, and a record with no stored fields normalizes to the
documented defaults. -/
theorem C7_history (store : List BDoc) (limit : Int) (h1 : 1 ≤ limit) (h2 : limit ≤ 50) :
    api_history (Except.ok store) (some limit) = Except.ok (get_history (Except.ok store) limit)
    ∧ (get_history (Except.ok store) limit).length ≤ limit.toNat
    ∧ api_history (Except.error ()) (some limit) = Except.ok []
    ∧ api_history (Except.ok store) none = Except.ok (get_history (Except.ok store) 12)
    ∧ exErr (api_history (Except.ok store) (some 0)) = true
    ∧ exErr (api_history (Except.ok store) (some 51)) = true
    ∧ normalizeRecord [] = Except.ok ⟨"", "#111827", "#ffffff", 10, 4, "M", none⟩ := by
  refine ⟨?_, ?_, ?_, rfl, rfl, rfl, rfl⟩
  · simp [api_history, h1, h2]
  · unfold get_history
    cases ha : normalizeAll (get_documents store limit) with
    | error e => simp [Except.bind, ha]
    | ok out =>
      simp only [Except.bind, ha]
      have hlen := normalizeAll_length _ _ ha
      rw [hlen]
      simp [get_documents, List.length_take]
  · simp [api_history, h1, h2, get_history, Except.bind]

/-- C7 witness: limit 5 with a failing store. -/
theorem C7_history_witness : api_history (Except.error ()) (some 5) = Except.ok [] :=
  (C7_history [] 5 (by decide) (by decide)).2.2.1

/-- C8: the PNG response is unchanged by anything the persistence write does:
any database contents and any write failure, including a Qr schema validation
failure of the persisted record, yield the same response, and a request with
non-blank content still succeeds. -/
theorem C8_persist_independent (c : Collab) (p : QRRequest) (wf1 wf2 : Bool) (db1 db2 : List Qr) :
    (generate_qr_png c wf1 db1 p).1 = (generate_qr_png c wf2 db2 p).1
    ∧ (pyStrip p.content ≠ "" → exOk ((generate_qr_png c wf1 db1 p).1) = true) := by
  constructor
  · by_cases hc : pyStrip p.content = "" <;> simp [generate_qr_png, hc]
  · intro hc
    simp [generate_qr_png, hc, exOk]

/-- C8 witness: pBad fails the Qr schema, its write is failing, and the
response is still a success. -/
theorem C8_persist_independent_witness :
    exOk ((generate_qr_png trivCollab true [] pBad).1) = true :=
  (C8_persist_independent trivCollab pBad true false [] []).2 (by decide)

/-- C9 counterexample: the request model of main.py declares no range
constraint, so a body with box_size 0 and border -1 passes request validation
and the request reaches image generation instead of being rejected. -/
theorem C9_cex :
    qrRequestValidate raw9 = Except.ok pBad
    ∧ pBad.box_size = 0 ∧ pBad.border = -1
    ∧ exOk ((generate_qr_png trivCollab false [] pBad).1) = true :=
  ⟨rfl, rfl, rfl, rfl⟩

/-- C9 amended: the generation request model declares types only — every
integer box_size and border passes request validation and generation proceeds;
the ranges box_size 1..50 and border 0..20 exist only on the persistence
schema Qr, whose violation is swallowed after generation. -/
theorem C9_amended (n m : Int) :
    qrRequestValidate
        [("content", BVal.vstr "hello"), ("box_size", BVal.vint n), ("border", BVal.vint m)]
      = Except.ok ⟨"hello", "#111827", "#ffffff", n, m, "M", true, none⟩
    ∧ ((n < 1 ∨ 50 < n ∨ m < 0 ∨ 20 < m) →
        exOk (qrValidate ⟨"hello", "#111827", "#ffffff", n, m, "M", true, none⟩) = false)
    ∧ (generate_qr_png trivCollab false [] ⟨"hello", "#111827", "#ffffff", n, m, "M", true, none⟩).1
      = (generate_qr_png trivCollab true [] ⟨"hello", "#111827", "#ffffff", n, m, "M", true, none⟩).1 := by
  refine ⟨rfl, ?_, rfl⟩
  intro hcase
  unfold qrValidate
  split_ifs with hv
  · exfalso
    obtain ⟨a1, a2, a3, a4, _⟩ := hv
    dsimp only at a1 a2 a3 a4
    rcases hcase with hx | hx | hx | hx <;> omega
  · rfl

/-- C9 amended witness: box_size 0 and border -1 violate only the persistence
schema. -/
theorem C9_amended_witness :
    exOk (qrValidate ⟨"hello", "#111827", "#ffffff", 0, -1, "M", true, none⟩) = false :=
  (C9_amended 0 (-1)).2.1 (by decide)

/-- C10: when the persistence read succeeds but any returned record fails
normalization, the whole history response is the empty list — well-formed
records are discarded along with the malformed one, and the endpoint still
answers with a success status. -/
theorem C10_all_or_nothing (store : List BDoc) (limit : Int)
    (h : ∃ d ∈ get_documents store limit, exErr (normalizeRecord d) = true) :
    get_history (Except.ok store) limit = []
    ∧ (1 ≤ limit ∧ limit ≤ 50 → api_history (Except.ok store) (some limit) = Except.ok []) := by
  obtain ⟨d, hmem, herr⟩ := h
  have hall := normalizeAll_err d (get_documents store limit) hmem herr
  have hmain : get_history (Except.ok store) limit = [] := by
    unfold get_history
    cases ha : normalizeAll (get_documents store limit) with
    | error e => simp [Except.bind, ha]
    | ok out =>
      rw [ha] at hall
      simp [exErr] at hall
  exact ⟨hmain, fun hl => by simp [api_history, hl.1, hl.2, hmain]⟩

/-- C10 witness: a store holding one normalizable record and one record whose
box_size cannot be converted yields the empty list. -/
theorem C10_all_or_nothing_witness : get_history (Except.ok [goodDoc, badDoc]) 12 = [] :=
  (C10_all_or_nothing [goodDoc, badDoc] 12 ⟨badDoc, by decide, by decide⟩).1
